import Mathlib

/-!
Shallow embedding of two Linux panel display drivers and the claims
about them:

* drivers/gpu/drm/panel/panel-ilitek-ili9806e.c  (Ilitek ILI9806E panel)
* an unnamed DRM driver for the Sitronix ST7789V controller in SPI mode

Each C function that talks to the hardware is modelled as a pure Lean
function producing the trace of externally visible side effects
(GPIO writes, sleeps, MIPI DBI bus commands) together with its int
return value.  Bus results that the C code could observe are passed in
as an oracle argument.
-/

/-- One externally visible side effect of a driver function. -/
inductive Event where
  /-- gpiod_set_value on the reset line. -/
  | gpioSet (value : Nat)
  /-- usleep_range(lo, hi), microseconds. -/
  | sleepUsRange (lo hi : Nat)
  /-- msleep(ms), milliseconds. -/
  | sleepMs (ms : Nat)
  /-- mipi_dbi_command: one command byte plus its data bytes. -/
  | cmd (c : Nat) (params : List Nat)
  /-- mipi_dbi_poweron_reset invocation. -/
  | poweronReset
  /-- drm_dev_exit invocation. -/
  | devExit
  /-- mipi_dbi_enable_flush invocation. -/
  | enableFlush
  deriving DecidableEq

/-- MIPI DCS command opcodes from video/mipi_display.h. -/
def MIPI_DCS_ENTER_SLEEP_MODE : Nat := 0x10

def MIPI_DCS_EXIT_SLEEP_MODE : Nat := 0x11

def MIPI_DCS_ENTER_NORMAL_MODE : Nat := 0x13

def MIPI_DCS_SET_DISPLAY_OFF : Nat := 0x28

def MIPI_DCS_SET_DISPLAY_ON : Nat := 0x29

def MIPI_DCS_SET_TEAR_ON : Nat := 0x35

def MIPI_DCS_SET_ADDRESS_MODE : Nat := 0x36

def MIPI_DCS_SET_PIXEL_FORMAT : Nat := 0x3a

/-- errno value ENOMEM. -/
def ENOMEM : Int := 12

/-- errno value ENOENT. -/
def ENOENT : Int := 2

/-- The page-switching register ILI9806E_Px_ENEXTC, valid for all pages. -/
def ILI9806E_Px_ENEXTC : Nat := 0xff

/-- ili9806e_switch_page: mipi_dbi_command(dbi, ILI9806E_Px_ENEXTC, 0xff, 0x98, 0x06, 0x04, page). -/
def ili9806e_switch_page (page : Nat) : Event :=
  Event.cmd ILI9806E_Px_ENEXTC [0xff, 0x98, 0x06, 0x04, page]

/-- The side-effect trace of ili9806e_prepare, line for line from the C
source: reset pulse, then the init sequence on pages 1, 6, 7, then back
to page 0 for the standard DCS commands.  Register names follow the
comments in the C source; the literal bytes are the macro expansions
(IFMODE1_SDO_STATUS is bit 4, DISCTRL2_EPL bit 0, RESCTRL_480x800 is 2,
INVTR_NLA_COLUMN is 0, P_GAMMA n is 0xa0+n-1, N_GAMMA n is 0xc0+n-1). -/
def ili9806e_prepare_trace : List Event :=
  [ Event.gpioSet 1,
    Event.sleepUsRange 15 50,     -- Min 10 us
    Event.gpioSet 0,
    Event.sleepMs 125,            -- Min 5 ms in sleep in mode, 120 ms in sleep out mode
    ili9806e_switch_page 1,
    Event.cmd 0x08 [0x10],        -- IFMODE1,  IFMODE1_SDO_STATUS
    Event.cmd 0x21 [0x01],        -- DISCTRL2, DISCTRL2_EPL
    Event.cmd 0x30 [0x02],        -- RESCTRL,  RESCTRL_480x800
    Event.cmd 0x31 [0x00],        -- INVTR,    INVTR_NLA_COLUMN
    Event.cmd 0x40 [0x10],        -- PWCTRL1
    Event.cmd 0x41 [0x55],        -- PWCTRL2
    Event.cmd 0x42 [0x02],        -- PWCTRL3
    Event.cmd 0x43 [0x09],        -- PWCTRL4
    Event.cmd 0x44 [0x07],        -- PWCTRL5
    Event.cmd 0x50 [0x78],        -- PWCTRL9
    Event.cmd 0x51 [0x78],        -- PWCTRL10
    Event.cmd 0x52 [0x00],        -- VMCTRL1
    Event.cmd 0x53 [0x6d],        -- VMCTRL2
    Event.cmd 0x60 [0x07],        -- SRCTADJ1
    Event.cmd 0x61 [0x00],        -- SRCTADJ2
    Event.cmd 0x62 [0x08],        -- SRCTADJ3
    Event.cmd 0x63 [0x00],        -- SRCTADJ4
    Event.cmd 0xa0 [0x00],        -- P_GAMMA 1
    Event.cmd 0xa1 [0x07],
    Event.cmd 0xa2 [0x0c],
    Event.cmd 0xa3 [0x0b],
    Event.cmd 0xa4 [0x03],
    Event.cmd 0xa5 [0x07],
    Event.cmd 0xa6 [0x06],
    Event.cmd 0xa7 [0x04],
    Event.cmd 0xa8 [0x08],
    Event.cmd 0xa9 [0x0c],
    Event.cmd 0xaa [0x13],
    Event.cmd 0xab [0x06],
    Event.cmd 0xac [0x0d],
    Event.cmd 0xad [0x19],
    Event.cmd 0xae [0x10],
    Event.cmd 0xaf [0x00],        -- P_GAMMA 16
    Event.cmd 0xc0 [0x00],        -- N_GAMMA 1
    Event.cmd 0xc1 [0x07],
    Event.cmd 0xc2 [0x0c],
    Event.cmd 0xc3 [0x0b],
    Event.cmd 0xc4 [0x03],
    Event.cmd 0xc5 [0x07],
    Event.cmd 0xc6 [0x07],
    Event.cmd 0xc7 [0x04],
    Event.cmd 0xc8 [0x08],
    Event.cmd 0xc9 [0x0c],
    Event.cmd 0xca [0x13],
    Event.cmd 0xcb [0x06],
    Event.cmd 0xcc [0x0d],
    Event.cmd 0xcd [0x18],
    Event.cmd 0xce [0x10],
    Event.cmd 0xcf [0x00],        -- N_GAMMA 16
    ili9806e_switch_page 6,
    Event.cmd 0x00 [0x20],
    Event.cmd 0x01 [0x0a],
    Event.cmd 0x02 [0x00],
    Event.cmd 0x03 [0x00],
    Event.cmd 0x04 [0x01],
    Event.cmd 0x05 [0x01],
    Event.cmd 0x06 [0x98],
    Event.cmd 0x07 [0x06],
    Event.cmd 0x08 [0x01],
    Event.cmd 0x09 [0x80],
    Event.cmd 0x0a [0x00],
    Event.cmd 0x0b [0x00],
    Event.cmd 0x0c [0x01],
    Event.cmd 0x0d [0x01],
    Event.cmd 0x0e [0x00],
    Event.cmd 0x0f [0x00],
    Event.cmd 0x10 [0xf0],
    Event.cmd 0x11 [0xf4],
    Event.cmd 0x12 [0x01],
    Event.cmd 0x13 [0x00],
    Event.cmd 0x14 [0x00],
    Event.cmd 0x15 [0xc0],
    Event.cmd 0x16 [0x08],
    Event.cmd 0x17 [0x00],
    Event.cmd 0x18 [0x00],
    Event.cmd 0x19 [0x00],
    Event.cmd 0x1a [0x00],
    Event.cmd 0x1b [0x00],
    Event.cmd 0x1c [0x00],
    Event.cmd 0x1d [0x00],
    Event.cmd 0x20 [0x01],
    Event.cmd 0x21 [0x23],
    Event.cmd 0x22 [0x45],
    Event.cmd 0x23 [0x67],
    Event.cmd 0x24 [0x01],
    Event.cmd 0x25 [0x23],
    Event.cmd 0x26 [0x45],
    Event.cmd 0x27 [0x67],
    Event.cmd 0x30 [0x11],
    Event.cmd 0x31 [0x11],
    Event.cmd 0x32 [0x00],
    Event.cmd 0x33 [0xee],
    Event.cmd 0x34 [0xff],
    Event.cmd 0x35 [0xbb],
    Event.cmd 0x36 [0xaa],
    Event.cmd 0x37 [0xdd],
    Event.cmd 0x38 [0xcc],
    Event.cmd 0x39 [0x66],
    Event.cmd 0x3a [0x77],
    Event.cmd 0x3b [0x22],
    Event.cmd 0x3c [0x22],
    Event.cmd 0x3d [0x22],
    Event.cmd 0x3e [0x22],
    Event.cmd 0x3f [0x22],
    Event.cmd 0x40 [0x22],
    Event.cmd 0x52 [0x10],
    Event.cmd 0x53 [0x10],
    ili9806e_switch_page 7,
    Event.cmd 0x17 [0x22],        -- VGLREGEN
    Event.cmd 0x02 [0x77],
    Event.cmd 0xe1 [0x79],
    ili9806e_switch_page 0,
    Event.cmd MIPI_DCS_SET_TEAR_ON [],
    Event.cmd MIPI_DCS_EXIT_SLEEP_MODE [],
    Event.sleepMs 120,
    Event.cmd MIPI_DCS_SET_DISPLAY_ON [],
    ]

/-- ili9806e_prepare.  The bus oracle gives the int result of the k-th
mipi_dbi_command issued; the C code discards every one of these results
and ends with an unconditional return 0, so the returned int does not
depend on the oracle. -/
def ili9806e_prepare (bus : Nat → Int) : Int × List Event :=
  let _ := bus            -- every mipi_dbi_command result is discarded by the C code
  (0, ili9806e_prepare_trace)

/-- ili9806e_unprepare: display off then enter sleep (each with a spurious
0x00 data byte, as in the C source), unconditional return 0. -/
def ili9806e_unprepare (bus : Nat → Int) : Int × List Event :=
  let _ := bus
  (0, [Event.cmd MIPI_DCS_SET_DISPLAY_OFF [0x00],
       Event.cmd MIPI_DCS_ENTER_SLEEP_MODE [0x00]])

/-- ili9806e_suspend: identical command pair to ili9806e_unprepare. -/
def ili9806e_suspend (bus : Nat → Int) : Int × List Event :=
  let _ := bus
  (0, [Event.cmd MIPI_DCS_SET_DISPLAY_OFF [0x00],
       Event.cmd MIPI_DCS_ENTER_SLEEP_MODE [0x00]])

/-- ili9806e_resume: exit sleep, 120 ms delay, display on, return 0. -/
def ili9806e_resume (bus : Nat → Int) : Int × List Event :=
  let _ := bus
  (0, [Event.cmd MIPI_DCS_EXIT_SLEEP_MODE [0x00],
       Event.sleepMs 120,
       Event.cmd MIPI_DCS_SET_DISPLAY_ON [0x00]])

/-- Outcome of looking up one named GPIO line for a device: the device
tree provides it, does not provide it, or the lookup fails with a
negative errno. -/
inductive GpioLookup where
  | present
  | absent
  | failed (e : Int)
  deriving DecidableEq

/-- The failure codes a GPIO lookup can really produce are negative
errnos; a GpioLookup is well formed when its failure code, if any, is
negative. -/
def GpioLookup.wellFormed : GpioLookup → Prop
  | .failed e => e < 0
  | _ => True

/-- A lookup that ended in .failed. -/
def GpioLookup.isFailed : GpioLookup → Bool
  | .failed _ => true
  | _ => false

/-- Modelled from the spec: gpiolib's devm_gpiod_get (kernel code outside
src/).  The spec treats the GPIO line as a device-provided resource whose
acquisition failure is propagated as a negative status code; the
non-optional getter also fails, with -ENOENT, when the device provides no
such line at all. -/
def devm_gpiod_get (g : GpioLookup) : Except Int (Option Unit) :=
  match g with
  | .present => .ok (some ())
  | .absent => .error (-ENOENT)
  | .failed e => .error e

/-- Modelled from the spec: gpiolib's devm_gpiod_get_optional (kernel
code outside src/).  Per the spec the line is optional: when the device
provides no such line the getter returns no descriptor (NULL) and no
error; a real lookup failure still yields a negative status code. -/
def devm_gpiod_get_optional (g : GpioLookup) : Except Int (Option Unit) :=
  match g with
  | .present => .ok (some ())
  | .absent => .ok none
  | .failed e => .error e

/-- The externally visible steps a probe function can take, in the order
the C code performs them. -/
inductive ProbeStep where
  | acquireResetGpio
  | acquireDcGpio
  | acquireBacklight
  /-- mipi_dbi_spi_init -/
  | busInit
  /-- mipi_dbi_dev_init (ST7789V only) -/
  | devInit
  /-- drm_panel_add (ILI9806E) -/
  | registerPanel
  /-- drm_dev_register (ST7789V) -/
  | registerDev
  /-- drm_fbdev_generic_setup (ST7789V) -/
  | fbdevSetup
  deriving DecidableEq

/-- Environment for one ili9806e_probe invocation: whether devm_kzalloc
succeeds, the reset GPIO lookup outcome, and the results of
drm_panel_of_backlight and mipi_dbi_spi_init (0 on success, a negative
errno on failure). -/
structure Ili9806eEnv where
  kzallocOk : Bool
  resetGpio : GpioLookup
  backlightRet : Int
  dbiInitRet : Int
  deriving DecidableEq

/-- ili9806e_probe: allocate, get the reset GPIO with the non-optional
devm_gpiod_get, get the backlight, init the MIPI DBI SPI bus, then
drm_panel_add.  dev_err_probe returns the error it is given, so each
failure returns that code and skips everything after it. -/
def ili9806e_probe (env : Ili9806eEnv) : Int × List ProbeStep :=
  if !env.kzallocOk then (-ENOMEM, [])
  else
    match devm_gpiod_get env.resetGpio with
    | .error e => (e, [.acquireResetGpio])
    | .ok _ =>
      if env.backlightRet ≠ 0 then
        (env.backlightRet, [.acquireResetGpio, .acquireBacklight])
      else if env.dbiInitRet ≠ 0 then
        (env.dbiInitRet, [.acquireResetGpio, .acquireBacklight, .busInit])
      else
        (0, [.acquireResetGpio, .acquireBacklight, .busInit, .registerPanel])

/-- Environment for one st7789v_probe invocation.  devAllocRet is 0 when
devm_drm_dev_alloc succeeds and the (negative) PTR_ERR otherwise;
backlightRet is 0 when devm_of_find_backlight yields a usable or NULL
backlight and the negative errno of its error pointer otherwise; the
remaining fields are the int results of mipi_dbi_spi_init,
mipi_dbi_dev_init and drm_dev_register. -/
structure St7789vEnv where
  devAllocRet : Int
  resetGpio : GpioLookup
  dcGpio : GpioLookup
  backlightRet : Int
  spiInitRet : Int
  devInitRet : Int
  regRet : Int
  deriving DecidableEq

/-- st7789v_probe: allocate the DRM device, get the optional reset and dc
GPIO lines, look up the backlight (the IS_ERR check on it is commented
out in the C source, so its result is never tested), init the SPI bus and
the MIPI DBI device, register the DRM device, then set up fbdev. -/
def st7789v_probe (env : St7789vEnv) : Int × List ProbeStep :=
  if env.devAllocRet ≠ 0 then (env.devAllocRet, [])
  else
    match devm_gpiod_get_optional env.resetGpio with
    | .error e => (e, [.acquireResetGpio])
    | .ok _ =>
      match devm_gpiod_get_optional env.dcGpio with
      | .error e => (e, [.acquireResetGpio, .acquireDcGpio])
      | .ok _ =>
        if env.spiInitRet ≠ 0 then
          (env.spiInitRet,
           [.acquireResetGpio, .acquireDcGpio, .acquireBacklight, .busInit])
        else if env.devInitRet ≠ 0 then
          (env.devInitRet,
           [.acquireResetGpio, .acquireDcGpio, .acquireBacklight, .busInit, .devInit])
        else if env.regRet ≠ 0 then
          (env.regRet,
           [.acquireResetGpio, .acquireDcGpio, .acquireBacklight, .busInit, .devInit,
            .registerDev])
        else
          (0,
           [.acquireResetGpio, .acquireDcGpio, .acquireBacklight, .busInit, .devInit,
            .registerDev, .fbdevSetup])

/-- Mode flags and type bits from the DRM uapi headers. -/
def DRM_MODE_FLAG_NHSYNC : Nat := 1 <<< 1

def DRM_MODE_FLAG_NVSYNC : Nat := 1 <<< 3

def DRM_MODE_TYPE_PREFERRED : Nat := 1 <<< 3

def DRM_MODE_TYPE_DRIVER : Nat := 1 <<< 6

/-- MEDIA_BUS_FMT_RGB666_1X18 from linux/media-bus-format.h; the C source
uses it as ILI9806E_BUS_FORMAT. -/
def MEDIA_BUS_FMT_RGB666_1X18 : Nat := 0x1009

/-- The fields of struct drm_display_mode the driver sets. -/
structure drm_display_mode where
  clock : Nat
  hdisplay : Nat
  hsync_start : Nat
  hsync_end : Nat
  htotal : Nat
  vdisplay : Nat
  vsync_start : Nat
  vsync_end : Nat
  vtotal : Nat
  width_mm : Nat
  height_mm : Nat
  flags : Nat
  modeType : Nat
  deriving DecidableEq

/-- The fixed mode nds040480800_v3_mode from the C source. -/
def nds040480800_v3_mode : drm_display_mode :=
  { width_mm := 51
    height_mm := 85
    clock := 30000
    hdisplay := 480
    hsync_start := 480 + 25
    hsync_end := 480 + 25 + 54
    htotal := 480 + 25 + 54 + 25
    vdisplay := 800
    vsync_start := 800 + 25
    vsync_end := 800 + 25 + 14
    vtotal := 800 + 25 + 14 + 22
    flags := DRM_MODE_FLAG_NHSYNC ||| DRM_MODE_FLAG_NVSYNC
    modeType := DRM_MODE_TYPE_PREFERRED ||| DRM_MODE_TYPE_DRIVER }

/-- The connector state ili9806e_get_modes updates: the probed-mode list
and the display info fields it writes. -/
structure ConnectorState where
  modes : List drm_display_mode
  width_mm : Nat
  height_mm : Nat
  busFormats : List Nat
  deriving DecidableEq

/-- ili9806e_get_modes: duplicate the fixed mode (dupOk tells whether
drm_mode_duplicate succeeds), fill in the display info, add the mode to
the connector and return the number of modes added, or return -ENOMEM
and leave the connector untouched when duplication fails. -/
def ili9806e_get_modes (dupOk : Bool) (connector : ConnectorState) : Int × ConnectorState :=
  if !dupOk then (-ENOMEM, connector)
  else
    (1,
     { connector with
       width_mm := nds040480800_v3_mode.width_mm
       height_mm := nds040480800_v3_mode.height_mm
       busFormats := [MEDIA_BUS_FMT_RGB666_1X18]
       modes := connector.modes ++ [nds040480800_v3_mode] })

/-- Address-mode bits from the ST7789V driver source. -/
def ST7789V_MY : Nat := 1 <<< 7

def ST7789V_MX : Nat := 1 <<< 6

def ST7789V_MV : Nat := 1 <<< 5

def ST7789V_RGB : Nat := 1 <<< 3

/-- The switch statement on dbidev rotation in st7789v_pipe_enable; the
line that would set ST7789V_RGB is commented out in the C source. -/
def st7789v_addr_mode (rotation : Nat) : Nat :=
  if rotation = 90 then ST7789V_MX ||| ST7789V_MV
  else if rotation = 180 then ST7789V_MX ||| ST7789V_MY
  else if rotation = 270 then ST7789V_MY ||| ST7789V_MV
  else 0

/-- The init sequence of st7789v_pipe_enable, line for line from the C
source, including the address-mode command computed from the rotation and
the trailing 20 ms sleep. -/
def st7789v_init_cmds (rotation : Nat) : List Event :=
  [ Event.cmd MIPI_DCS_SET_PIXEL_FORMAT [0x05],
    Event.cmd 0xB2 [0x0C, 0x0C, 0x00, 0x33, 0x33],    -- Porch setting
    Event.cmd 0xB7 [0x35],                            -- Gate control
    Event.cmd 0xBB [0x19],                            -- VCOM settings
    Event.cmd 0xC0 [0x2C],                            -- LCM Control
    Event.cmd 0xC2 [0x01],                            -- VDV and VRH Command Enable
    Event.cmd 0xC3 [0x12],                            -- VRH Set
    Event.cmd 0xC4 [0x20],                            -- VDV Set
    Event.cmd 0xC6 [0x0F],                            -- Frame Rate Control in Normal Mode
    Event.cmd 0xD0 [0xA4, 0xA1],                      -- Power control 1
    Event.cmd 0xE0 [0xD0, 0x04, 0x0D, 0x11, 0x13, 0x2B, 0x3F,
                    0x54, 0x4C, 0x18, 0x0D, 0x0B, 0x1F, 0x23],
    Event.cmd 0xE1 [0xD0, 0x04, 0x0C, 0x11, 0x13, 0x2C, 0x3F,
                    0x44, 0x51, 0x2F, 0x1F, 0x1F, 0x20, 0x23],
    Event.cmd MIPI_DCS_ENTER_NORMAL_MODE [],
    Event.cmd MIPI_DCS_SET_ADDRESS_MODE [st7789v_addr_mode rotation],
    Event.cmd MIPI_DCS_EXIT_SLEEP_MODE [],
    Event.cmd MIPI_DCS_SET_DISPLAY_ON [],
    Event.sleepMs 20 ]

/-- st7789v_pipe_enable: return immediately when drm_dev_enter fails;
otherwise run the power-on reset, call drm_dev_exit when it failed (the C
code has no return there, so execution falls through), then run the whole
init sequence and the final enable-flush unconditionally.  resetRet is
the int result of mipi_dbi_poweron_reset. -/
def st7789v_pipe_enable (devEnterOk : Bool) (resetRet : Int) (rotation : Nat) : List Event :=
  if !devEnterOk then []
  else
    Event.poweronReset ::
      ((if resetRet ≠ 0 then [Event.devExit] else []) ++
        st7789v_init_cmds rotation ++ [Event.enableFlush])

/-- A bus oracle on which every mipi_dbi_command fails with -EIO. -/
def failingBus : Nat → Int := fun _ => -5

/-- Claim C1, counterexample: on a bus where every write fails with -EIO,
ili9806e_prepare, ili9806e_unprepare, ili9806e_suspend and
ili9806e_resume all still return 0, not a negative code. -/
theorem ili9806e_power_ops_return_zero_on_bus_failure :
    failingBus 0 < 0 ∧
    ¬ (ili9806e_prepare failingBus).fst < 0 ∧
    ¬ (ili9806e_unprepare failingBus).fst < 0 ∧
    ¬ (ili9806e_suspend failingBus).fst < 0 ∧
    ¬ (ili9806e_resume failingBus).fst < 0 := by
  refine ⟨by decide, ?_, ?_, ?_, ?_⟩ <;> decide

/-- Claim C1, amended: the power-state operations discard the status of
every mipi_dbi_command they issue and return 0 unconditionally, for any
outcome of the bus writes; bus failures are never propagated to the
caller. -/
theorem ili9806e_power_ops_always_return_zero (bus : Nat → Int) :
    (ili9806e_prepare bus).fst = 0 ∧
    (ili9806e_unprepare bus).fst = 0 ∧
    (ili9806e_suspend bus).fst = 0 ∧
    (ili9806e_resume bus).fst = 0 :=
  ⟨rfl, rfl, rfl, rfl⟩

/-- Claim C5: every invocation of ili9806e_prepare produces the same
fixed trace of 121 events.  It starts with the reset pulse: assert the
reset line, sleep 15 to 50 microseconds (at least the required 10),
deassert, sleep 125 milliseconds (at least the required 120); and it ends
with tearing-effect on, exit sleep, a 120 ms delay, and display on. -/
theorem ili9806e_prepare_sequence (bus : Nat → Int) :
    (ili9806e_prepare bus).snd = ili9806e_prepare_trace ∧
    ili9806e_prepare_trace.length = 121 ∧
    ili9806e_prepare_trace.take 4 =
      [Event.gpioSet 1, Event.sleepUsRange 15 50, Event.gpioSet 0, Event.sleepMs 125] ∧
    (10 : Nat) ≤ 15 ∧ (120 : Nat) ≤ 125 ∧
    ili9806e_prepare_trace.drop 117 =
      [Event.cmd MIPI_DCS_SET_TEAR_ON [],
       Event.cmd MIPI_DCS_EXIT_SLEEP_MODE [],
       Event.sleepMs 120,
       Event.cmd MIPI_DCS_SET_DISPLAY_ON []] := by
  refine ⟨rfl, by decide, by decide, by decide, by decide, by decide⟩

/-- Claim C6: ili9806e_unprepare issues exactly two bus commands, set
display off then enter sleep mode, in that order and nothing else, for
any bus outcome; ili9806e_suspend produces the identical trace. -/
theorem ili9806e_power_off_two_commands (bus : Nat → Int) :
    (ili9806e_unprepare bus).snd =
      [Event.cmd MIPI_DCS_SET_DISPLAY_OFF [0x00],
       Event.cmd MIPI_DCS_ENTER_SLEEP_MODE [0x00]] ∧
    (ili9806e_suspend bus).snd = (ili9806e_unprepare bus).snd :=
  ⟨rfl, rfl⟩

/-- Claim C7: when mode duplication succeeds ili9806e_get_modes adds
exactly one mode to the connector, the fixed 480x800 mode
nds040480800_v3_mode, and returns 1; when duplication fails it returns
-ENOMEM and adds no mode. -/
theorem ili9806e_get_modes_single_mode (c : ConnectorState) :
    (ili9806e_get_modes true c).fst = 1 ∧
    (ili9806e_get_modes true c).snd.modes = c.modes ++ [nds040480800_v3_mode] ∧
    nds040480800_v3_mode.hdisplay = 480 ∧
    nds040480800_v3_mode.vdisplay = 800 ∧
    (ili9806e_get_modes false c).fst = -ENOMEM ∧
    (ili9806e_get_modes false c).snd.modes = c.modes :=
  ⟨rfl, rfl, rfl, rfl, rfl, rfl⟩

/-- An ili9806e_probe environment in which the device provides no reset
GPIO line and everything else succeeds. -/
def ili9806eEnvNoGpio : Ili9806eEnv :=
  { kzallocOk := true, resetGpio := .absent, backlightRet := 0, dbiInitRet := 0 }

/-- Claim C2, counterexample: when the device provides no reset GPIO
line, ili9806e_probe does not succeed: it returns a negative code and
never reaches drm_panel_add, because it uses the non-optional
devm_gpiod_get. -/
theorem ili9806e_probe_fails_without_reset_gpio :
    (ili9806e_probe ili9806eEnvNoGpio).fst < 0 ∧
    ProbeStep.registerPanel ∉ (ili9806e_probe ili9806eEnvNoGpio).snd := by
  decide

/-- Claim C2, amended: the reset and data-command GPIO lines are optional
for the ST7789V probe, which succeeds when the device provides neither;
the ILI9806E reset GPIO is mandatory, and its probe returns -ENOENT when
the device provides no reset line. -/
theorem gpio_optional_st7789v_mandatory_ili9806e (e1 : St7789vEnv) (e2 : Ili9806eEnv)
    (h1 : e1.resetGpio = .absent) (h2 : e1.dcGpio = .absent)
    (h3 : e1.devAllocRet = 0) (h4 : e1.spiInitRet = 0) (h5 : e1.devInitRet = 0)
    (h6 : e1.regRet = 0)
    (h7 : e2.resetGpio = .absent) (h8 : e2.kzallocOk = true) :
    (st7789v_probe e1).fst = 0 ∧
    (ili9806e_probe e2).fst = -ENOENT ∧ (ili9806e_probe e2).fst < 0 := by
  obtain ⟨a, r, d, b, s, v, g⟩ := e1
  obtain ⟨k, rg, bl, di⟩ := e2
  simp_all [st7789v_probe, ili9806e_probe, devm_gpiod_get, devm_gpiod_get_optional, ENOENT]

/-- Witness for the amended claim C2 at concrete environments. -/
theorem gpio_optional_st7789v_mandatory_ili9806e_witness :
    (st7789v_probe
      { devAllocRet := 0, resetGpio := .absent, dcGpio := .absent, backlightRet := 0,
        spiInitRet := 0, devInitRet := 0, regRet := 0 }).fst = 0 ∧
    (ili9806e_probe ili9806eEnvNoGpio).fst = -ENOENT ∧
    (ili9806e_probe ili9806eEnvNoGpio).fst < 0 :=
  gpio_optional_st7789v_mandatory_ili9806e _ _ rfl rfl rfl rfl rfl rfl rfl rfl

/-- Claim C8: when mipi_dbi_poweron_reset fails in st7789v_pipe_enable
(and drm_dev_enter succeeded), the function calls drm_dev_exit but falls
through: the whole init command sequence still runs and the final
mipi_dbi_enable_flush is still performed. -/
theorem st7789v_enable_continues_after_reset_error (resetRet : Int) (rotation : Nat)
    (h : resetRet ≠ 0) :
    st7789v_pipe_enable true resetRet rotation =
      Event.poweronReset :: Event.devExit ::
        (st7789v_init_cmds rotation ++ [Event.enableFlush]) ∧
    Event.enableFlush ∈ st7789v_pipe_enable true resetRet rotation := by
  constructor
  · simp [st7789v_pipe_enable, h]
  · simp [st7789v_pipe_enable, h]

/-- Witness for claim C8 with a failed power-on reset (-EIO) and rotation 0. -/
theorem st7789v_enable_continues_after_reset_error_witness :
    st7789v_pipe_enable true (-5) 0 =
      Event.poweronReset :: Event.devExit ::
        (st7789v_init_cmds 0 ++ [Event.enableFlush]) ∧
    Event.enableFlush ∈ st7789v_pipe_enable true (-5) 0 :=
  st7789v_enable_continues_after_reset_error (-5) 0 (by decide)

/-- Claim C9: the byte st7789v_pipe_enable sends with
MIPI_DCS_SET_ADDRESS_MODE is a pure function of the rotation taking
exactly the values MX or-ed MV (0x60) at 90, MX or-ed MY (0xc0) at 180,
MY or-ed MV (0xa0) at 270, and 0 at every other rotation; the RGB bit is
never set in it. -/
theorem st7789v_addr_mode_values (rotation : Nat) :
    Event.cmd MIPI_DCS_SET_ADDRESS_MODE [st7789v_addr_mode rotation] ∈
      st7789v_pipe_enable true 0 rotation ∧
    (rotation = 90 → st7789v_addr_mode rotation = 0x60) ∧
    (rotation = 180 → st7789v_addr_mode rotation = 0xc0) ∧
    (rotation = 270 → st7789v_addr_mode rotation = 0xa0) ∧
    (rotation ≠ 90 → rotation ≠ 180 → rotation ≠ 270 → st7789v_addr_mode rotation = 0) ∧
    st7789v_addr_mode rotation &&& ST7789V_RGB = 0 := by
  refine ⟨?_, ?_, ?_, ?_, ?_, ?_⟩
  · simp [st7789v_pipe_enable, st7789v_init_cmds]
  · rintro rfl; decide
  · rintro rfl; decide
  · rintro rfl; decide
  · intro h90 h180 h270
    simp [st7789v_addr_mode, h90, h180, h270]
  · unfold st7789v_addr_mode
    split_ifs <;> decide

/-- Witness for claim C9 at rotations 90 and 45. -/
theorem st7789v_addr_mode_values_witness :
    st7789v_addr_mode 90 = 0x60 ∧ st7789v_addr_mode 45 = 0 :=
  ⟨(st7789v_addr_mode_values 90).2.1 rfl,
   (st7789v_addr_mode_values 45).2.2.2.2.1 (by decide) (by decide) (by decide)⟩

/-- An st7789v_probe environment in which the backlight lookup fails with
-EIO and every other resource acquisition succeeds. -/
def st7789vEnvBadBacklight : St7789vEnv :=
  { devAllocRet := 0, resetGpio := .present, dcGpio := .present, backlightRet := -5,
    spiInitRet := 0, devInitRet := 0, regRet := 0 }

/-- Claim C3, counterexample: when devm_of_find_backlight fails,
st7789v_probe (whose IS_ERR check on the backlight is commented out)
still returns 0 and still registers the DRM device. -/
theorem st7789v_probe_ignores_backlight_error :
    st7789vEnvBadBacklight.backlightRet < 0 ∧
    (st7789v_probe st7789vEnvBadBacklight).fst = 0 ∧
    ProbeStep.registerDev ∈ (st7789v_probe st7789vEnvBadBacklight).snd := by
  decide

/-- Claim C3, amended: when the reset GPIO lookup or the MIPI DBI SPI
init fails in either driver, or the backlight lookup fails in the
ILI9806E driver, the probe returns a negative status code and does not
register the panel or DRM device; the ST7789V probe ignores backlight
acquisition failures. -/
theorem probe_error_propagation_amended (e1 : Ili9806eEnv) (e2 : St7789vEnv)
    (hb : e1.backlightRet ≤ 0)
    (hr1 : e1.resetGpio.wellFormed)
    (ha : e2.devAllocRet ≤ 0) (hs : e2.spiInitRet ≤ 0)
    (hr2 : e2.resetGpio.wellFormed) (hd2 : e2.dcGpio.wellFormed) :
    ((e1.resetGpio.isFailed = true ∨ e1.backlightRet < 0 ∨ e1.dbiInitRet < 0) →
      (ili9806e_probe e1).fst < 0 ∧
      ProbeStep.registerPanel ∉ (ili9806e_probe e1).snd) ∧
    ((e2.resetGpio.isFailed = true ∨ e2.dcGpio.isFailed = true ∨
        e2.spiInitRet < 0 ∨ e2.devInitRet < 0) →
      (st7789v_probe e2).fst < 0 ∧
      ProbeStep.registerDev ∉ (st7789v_probe e2).snd) := by
  obtain ⟨k, rg, bl, di⟩ := e1
  obtain ⟨a2, rg2, dg2, bl2, s2, v2, g2⟩ := e2
  constructor
  · rintro (h | h | h) <;> cases rg <;> cases k <;>
      simp_all [ili9806e_probe, devm_gpiod_get, GpioLookup.isFailed,
                GpioLookup.wellFormed, ENOMEM, ENOENT] <;>
      split_ifs <;> simp_all <;> omega
  · rintro (h | h | h | h) <;> cases rg2 <;> cases dg2 <;>
      simp_all [st7789v_probe, devm_gpiod_get_optional, GpioLookup.isFailed,
                GpioLookup.wellFormed] <;>
      split_ifs <;> simp_all <;> omega

/-- Witness for the amended claim C3: a failed reset GPIO lookup (-EIO)
in the ILI9806E probe and a failed SPI init (-EIO) in the ST7789V probe
both yield a negative return and no registration. -/
theorem probe_error_propagation_amended_witness :
    ((GpioLookup.isFailed (GpioLookup.failed (-5)) = true ∨ (0 : Int) < 0 ∨ (0 : Int) < 0) →
      (ili9806e_probe
        { kzallocOk := true, resetGpio := .failed (-5), backlightRet := 0,
          dbiInitRet := 0 }).fst < 0 ∧
      ProbeStep.registerPanel ∉ (ili9806e_probe
        { kzallocOk := true, resetGpio := .failed (-5), backlightRet := 0,
          dbiInitRet := 0 }).snd) ∧
    ((GpioLookup.isFailed .present = true ∨ GpioLookup.isFailed .present = true ∨
        (-5 : Int) < 0 ∨ (0 : Int) < 0) →
      (st7789v_probe
        { devAllocRet := 0, resetGpio := .present, dcGpio := .present, backlightRet := 0,
          spiInitRet := -5, devInitRet := 0, regRet := 0 }).fst < 0 ∧
      ProbeStep.registerDev ∉ (st7789v_probe
        { devAllocRet := 0, resetGpio := .present, dcGpio := .present, backlightRet := 0,
          spiInitRet := -5, devInitRet := 0, regRet := 0 }).snd) :=
  probe_error_propagation_amended
    { kzallocOk := true, resetGpio := .failed (-5), backlightRet := 0, dbiInitRet := 0 }
    { devAllocRet := 0, resetGpio := .present, dcGpio := .present, backlightRet := 0,
      spiInitRet := -5, devInitRet := 0, regRet := 0 }
    (by norm_num) (by norm_num [GpioLookup.wellFormed]) (by norm_num) (by norm_num)
    trivial trivial

/-- Claim C4: in every successful probe invocation of either driver, the
trace is exactly the resource acquisitions, in program order, followed by
the registration with the display framework, and registration happens
only with the reset GPIO lookup, backlight or dc lookup, and bus init all
succeeded beforehand. -/
theorem probe_acquire_before_register (e1 : Ili9806eEnv) (e2 : St7789vEnv)
    (hr1 : e1.resetGpio.wellFormed)
    (hr2 : e2.resetGpio.wellFormed) (hd2 : e2.dcGpio.wellFormed)
    (h1 : (ili9806e_probe e1).fst = 0) (h2 : (st7789v_probe e2).fst = 0) :
    (ili9806e_probe e1).snd =
      [.acquireResetGpio, .acquireBacklight, .busInit, .registerPanel] ∧
    devm_gpiod_get e1.resetGpio = .ok (some ()) ∧
    e1.backlightRet = 0 ∧ e1.dbiInitRet = 0 ∧
    (st7789v_probe e2).snd =
      [.acquireResetGpio, .acquireDcGpio, .acquireBacklight, .busInit, .devInit,
       .registerDev, .fbdevSetup] ∧
    (∃ v, devm_gpiod_get_optional e2.resetGpio = .ok v) ∧
    (∃ v, devm_gpiod_get_optional e2.dcGpio = .ok v) ∧
    e2.spiInitRet = 0 ∧ e2.devInitRet = 0 := by
  obtain ⟨k, rg, bl, di⟩ := e1
  obtain ⟨a2, rg2, dg2, bl2, s2, v2, g2⟩ := e2
  cases rg <;> cases rg2 <;> cases dg2 <;> cases k <;>
    simp_all [ili9806e_probe, st7789v_probe, devm_gpiod_get, devm_gpiod_get_optional,
              GpioLookup.wellFormed, ENOMEM, ENOENT] <;>
    split_ifs at h1 h2 <;> simp_all

/-- Witness for claim C4 at fully successful concrete environments. -/
theorem probe_acquire_before_register_witness :
    (ili9806e_probe
      { kzallocOk := true, resetGpio := .present, backlightRet := 0, dbiInitRet := 0 }).snd =
      [.acquireResetGpio, .acquireBacklight, .busInit, .registerPanel] ∧
    devm_gpiod_get GpioLookup.present = .ok (some ()) ∧
    (0 : Int) = 0 ∧ (0 : Int) = 0 ∧
    (st7789v_probe
      { devAllocRet := 0, resetGpio := .present, dcGpio := .present, backlightRet := 0,
        spiInitRet := 0, devInitRet := 0, regRet := 0 }).snd =
      [.acquireResetGpio, .acquireDcGpio, .acquireBacklight, .busInit, .devInit,
       .registerDev, .fbdevSetup] ∧
    (∃ v, devm_gpiod_get_optional GpioLookup.present = .ok v) ∧
    (∃ v, devm_gpiod_get_optional GpioLookup.present = .ok v) ∧
    (0 : Int) = 0 ∧ (0 : Int) = 0 :=
  probe_acquire_before_register
    { kzallocOk := true, resetGpio := .present, backlightRet := 0, dbiInitRet := 0 }
    { devAllocRet := 0, resetGpio := .present, dcGpio := .present, backlightRet := 0,
      spiInitRet := 0, devInitRet := 0, regRet := 0 }
    trivial trivial trivial rfl rfl

/-- The page selected by an event, when the event is a page-switch
command: command byte 0xff with the five data bytes 0xff, 0x98, 0x06,
0x04 followed by the page number. -/
def pageOf : Event → Option Nat
  | .cmd 0xff [0xff, 0x98, 0x06, 0x04, p] => some p
  | _ => none

/-- The page-0 tail of the prepare sequence: the standard DCS commands
tear on and exit sleep, the 120 ms delay, and display on. -/
def stdDcsTail : List Event :=
  [Event.cmd MIPI_DCS_SET_TEAR_ON [],
   Event.cmd MIPI_DCS_EXIT_SLEEP_MODE [],
   Event.sleepMs 120,
   Event.cmd MIPI_DCS_SET_DISPLAY_ON []]

set_option maxRecDepth 10000 in
/-- Claim C10: every page switch in ili9806e_prepare sends the fixed
five-byte enable-extended-command prefix followed by the page number;
the page switches in the trace select pages 1, 6, 7 and finally 0, in
that order; the first bus command of the sequence is the switch to page
1, so every vendor register write happens under an explicitly selected
page; none of the standard DCS commands occurs before the switch to page
0; and after that switch exactly the standard DCS tail follows. -/
theorem ili9806e_prepare_page_discipline :
    (∀ p, pageOf (ili9806e_switch_page p) = some p) ∧
    ili9806e_prepare_trace.filterMap pageOf = [1, 6, 7, 0] ∧
    ili9806e_prepare_trace[4]? = some (ili9806e_switch_page 1) ∧
    (ili9806e_prepare_trace.takeWhile (fun e => pageOf e ≠ some 0)).all
      (fun e => !stdDcsTail.contains e) = true ∧
    ili9806e_prepare_trace.dropWhile (fun e => pageOf e ≠ some 0) =
      ili9806e_switch_page 0 :: stdDcsTail := by
  refine ⟨fun p => rfl, by decide, by decide, by decide, by decide⟩
